import Mathlib

/-!
# Verification of the Chat Input Controller (`ChatInputArea`)

Shallow embedding of the chat-input interaction logic of the `ChatInputArea`
React component.  Text is modelled as `List Char` (JS strings indexed by
position), files as their identifying `(name, size, lastModified)` triple,
and each event handler as a pure function from its inputs and the current
local component state to the next state together with the externally
observable effects (backend submit call, `preventDefault`, notifications,
scroll request, and so on).  External asynchronous results (artifact upload)
are inputs to the handler that consumes them.
-/

namespace ChatInputArea

/-- Identifying data of a selected file: the component deduplicates files by
the `(name, size, lastModified)` triple, which is all it ever inspects. -/
structure FileMeta where
  name : String
  size : Nat
  lastModified : Nat
deriving DecidableEq, Repr

/-- Badge record for a pasted text block that was saved as a backend
artifact (`PastedArtifactItem` in the source). -/
structure PastedArtifactItem where
  id : String
  artifactId : String
  filename : String
  timestamp : Nat
deriving DecidableEq, Repr

/-- Router-carried pending prompt (`location.state`: `promptText`,
`groupId`, `groupName`). -/
structure LocPrompt where
  promptText : List Char
  groupId : String
  groupName : String
deriving DecidableEq, Repr

/-- The local state of the controller: the `useState` cells of
`ChatInputArea` that the interaction logic reads and writes. -/
structure ControllerState where
  selectedFiles : List FileMeta
  pastedArtifactItems : List PastedArtifactItem
  pendingPasteContent : Option (List Char)
  showArtifactForm : Bool
  contextText : Option (List Char)
  inputValue : List Char
  showPromptsCommand : Bool
  showVariableDialog : Bool
  pendingPromptGroup : Option LocPrompt
deriving DecidableEq, Repr

/-- A call into the Session context's `handleSubmit(event, files, message)`. -/
structure SubmitCall where
  files : List FileMeta
  message : List Char
deriving DecidableEq, Repr

/-- Result of a handler that may submit: next state, the backend submit call
(if any), and whether a scroll-to-bottom was requested. -/
structure SubmitOutcome where
  state : ControllerState
  submitted : Option SubmitCall
  scrolledToBottom : Bool
deriving DecidableEq, Repr

/-- Code points treated as whitespace by JavaScript `String.prototype.trim`
(ECMAScript WhiteSpace and LineTerminator productions). -/
def jsWhitespaceCodes : List Nat :=
  [9, 10, 11, 12, 13, 32, 160, 5760, 8192, 8193, 8194, 8195, 8196, 8197,
   8198, 8199, 8200, 8201, 8202, 8232, 8233, 8239, 8287, 12288, 65279]

/-- Whether a character is JS whitespace. -/
def isJsWhitespace (c : Char) : Bool := jsWhitespaceCodes.contains c.toNat

/-- JavaScript `String.prototype.trim` on the character-list model. -/
def jsTrim (l : List Char) : List Char :=
  ((l.dropWhile isJsWhitespace).reverse.dropWhile isJsWhitespace).reverse

/-- Modelled from the spec: the large-text threshold used by the paste
classifier.  The classifier `isLargeText` lives in the `./paste` module,
which is not among the provided sources; the spec only says pasted text is
"classified by a size threshold", so the numeric value is a representative
positive constant. -/
def largeTextThreshold : Nat := 1000

/-- Modelled from the spec: `isLargeText` from `./paste` — true exactly when
the text's length is at or above the large-text threshold. -/
def isLargeText (l : List Char) : Bool := largeTextThreshold ≤ l.length

/-- The duplicate test used verbatim in `handleFileChange`, `handlePaste`
and `handleFilesDropped`: same name, size and last-modified time. -/
def sameFileMeta (existingFile newFile : FileMeta) : Bool :=
  existingFile.name = newFile.name && existingFile.size = newFile.size &&
    existingFile.lastModified = newFile.lastModified

/-- The merge step shared by the three file-arrival handlers: keep the
incoming files that match no already-selected file, and append them. -/
def dedupMerge (selected incoming : List FileMeta) : List FileMeta :=
  let newFiles := incoming.filter fun newFile =>
    !(selected.any fun existingFile => sameFileMeta existingFile newFile)
  selected ++ newFiles

/-- `handleFileChange`: files picked via the hidden file input
(`event.target.files`, `null` when absent) are dedup-merged into the
Selected File Set.  The handler itself performs no responding-state check. -/
def handleFileChange (files : Option (List FileMeta)) (s : ControllerState) :
    ControllerState :=
  match files with
  | some fs => { s with selectedFiles := dedupMerge s.selectedFiles fs }
  | none => s

/-- `handleFilesDropped`: a no-op while responding, otherwise the same
dedup-merge. -/
def handleFilesDropped (isResponding : Bool) (files : List FileMeta)
    (s : ControllerState) : ControllerState :=
  if isResponding then s
  else { s with selectedFiles := dedupMerge s.selectedFiles files }

/-- Clipboard payload of a paste event: the file list and the result of
`getData("text")`. -/
structure ClipboardPayload where
  files : List FileMeta
  text : List Char
deriving DecidableEq, Repr

/-- Result of `handlePaste`: next state and whether `preventDefault` was
called (suppressing the browser's default text insertion). -/
structure PasteOutcome where
  state : ControllerState
  defaultPrevented : Bool
deriving DecidableEq, Repr

/-- `handlePaste`: ignored while responding or without clipboard data; a
paste carrying files suppresses the default and dedup-merges the files;
otherwise non-empty large text suppresses the default, becomes the pending
paste content and opens the artifact form; small text falls through. -/
def handlePaste (isResponding : Bool) (clipboardData : Option ClipboardPayload)
    (s : ControllerState) : PasteOutcome :=
  if isResponding then ⟨s, false⟩ else
  match clipboardData with
  | none => ⟨s, false⟩
  | some clip =>
    if 0 < clip.files.length then
      ⟨{ s with selectedFiles := dedupMerge s.selectedFiles clip.files }, true⟩
    else if clip.text ≠ [] ∧ isLargeText clip.text then
      ⟨{ s with pendingPasteContent := some clip.text,
                showArtifactForm := true }, true⟩
    else ⟨s, false⟩

/-- `isSubmittingEnabled`: not responding and (trimmed draft truthy or the
Selected File Set non-empty). -/
def isSubmittingEnabled (isResponding : Bool) (inputValue : List Char)
    (selectedFiles : List FileMeta) : Bool :=
  !isResponding && (jsTrim inputValue ≠ [] || selectedFiles.length ≠ 0)

/-- `onSubmit`: when the guard holds, compose the message (trimmed draft,
with the context string appended when truthy), call the Session context's
`handleSubmit` with the selected files, clear draft, files, pasted-artifact
badges and context, and request a scroll to bottom; otherwise do nothing. -/
def onSubmit (isResponding : Bool) (s : ControllerState) : SubmitOutcome :=
  if isSubmittingEnabled isResponding s.inputValue s.selectedFiles then
    let trimmed := jsTrim s.inputValue
    let fullMessage :=
      match s.contextText with
      | some ctx =>
        if ctx = [] then trimmed
        else trimmed ++ String.toList "\n\nContext: \"" ++ ctx ++ ['\"']
      | none => trimmed
    { state := { s with selectedFiles := [], pastedArtifactItems := [],
                        inputValue := [], contextText := none },
      submitted := some { files := s.selectedFiles, message := fullMessage },
      scrolledToBottom := true }
  else
    { state := s, submitted := none, scrolledToBottom := false }

/-- `handleInputChange`: update the draft, open the slash-command popover
when the character just before the cursor is `/` preceded by nothing, a
space or a newline, and close it when it is open and the text before the
cursor no longer contains `/`. -/
def handleInputChange (value : List Char) (cursorPosition : Nat)
    (s : ControllerState) : ControllerState :=
  let s1 := { s with inputValue := value }
  let textBeforeCursor := value.take cursorPosition
  let lastChar := textBeforeCursor.getLast?
  let charBeforeLast := textBeforeCursor.dropLast.getLast?
  if lastChar = some '/' ∧
      (charBeforeLast = none ∨ charBeforeLast = some ' ' ∨
        charBeforeLast = some '\n') then
    { s1 with showPromptsCommand := true }
  else if s.showPromptsCommand ∧ '/' ∉ textBeforeCursor then
    { s1 with showPromptsCommand := false }
  else s1

/-- JavaScript `lastIndexOf` of a character in a character list: the index
of the last occurrence, or `-1` when absent. -/
def jsLastIndexOf (c : Char) : List Char → Int
  | [] => -1
  | a :: rest =>
    let r := jsLastIndexOf c rest
    if 0 ≤ r then r + 1
    else if a = c then 0
    else -1

/-- JavaScript `substring(0, e)` on a character list: `e` is clamped below
at `0` and above at the length. -/
def jsSubstring0 (l : List Char) (e : Int) : List Char := l.take e.toNat

/-- `handlePromptSelect`: replace the span from the last `/` before the
cursor up to the cursor with the prompt text, keep the text after the
cursor, and close the popover. -/
def handlePromptSelect (cursorPosition : Nat) (promptText : List Char)
    (s : ControllerState) : ControllerState :=
  let textBeforeCursor := s.inputValue.take cursorPosition
  let textAfterCursor := s.inputValue.drop cursorPosition
  let lastSlashIndex := jsLastIndexOf '/' textBeforeCursor
  let newText :=
    jsSubstring0 textBeforeCursor lastSlashIndex ++ promptText ++ textAfterCursor
  { s with inputValue := newText, showPromptsCommand := false }

/-- The `follow-up-question` listener: record the selected text as context;
when a truthy prompt is supplied, prefill the draft with `prompt + " "`,
and when auto-submit is requested, immediately call the Session context's
`handleSubmit` with no attachments and the composed message, then clear
context and draft and request a scroll to bottom.  The handler consults no
responding flag and no draft guard. -/
def handleFollowUp (text : List Char) (prompt : Option (List Char))
    (autoSubmit : Bool) (s : ControllerState) : SubmitOutcome :=
  let s1 := { s with contextText := some text }
  match prompt with
  | some p =>
    if p = [] then { state := s1, submitted := none, scrolledToBottom := false }
    else
      let s2 := { s1 with inputValue := p ++ [' '] }
      if autoSubmit then
        let fullMessage := p ++ String.toList "\n\nContext: \"" ++ text ++ ['\"']
        { state := { s2 with contextText := none, inputValue := [] },
          submitted := some { files := [], message := fullMessage },
          scrolledToBottom := true }
      else { state := s2, submitted := none, scrolledToBottom := false }
  | none => { state := s1, submitted := none, scrolledToBottom := false }

/-- Result of the awaited `uploadArtifactFile` call as observed by
`handleSaveAsArtifact`: a success value carrying `uri` and possibly a
session id, a result with an `error` field, a falsy result, or a thrown
exception (an `Error` with a message, or anything else). -/
inductive UploadResult where
  | ok (uri : String) (resSessionId : Option String)
  | errResult (msg : String)
  | nullResult
  | thrown (msg : Option String)
deriving DecidableEq, Repr

/-- A user-visible toast: message text and whether it used the `"error"`
variant. -/
structure Toast where
  message : String
  isError : Bool
deriving DecidableEq, Repr

/-- Result of `handleSaveAsArtifact`: next state, toasts emitted in order,
whether the artifact list refetch ran, and the session id passed to
`setSessionId` (if any). -/
structure SaveOutcome where
  state : ControllerState
  toasts : List Toast
  refetched : Bool
  setSessionIdTo : Option String
deriving DecidableEq, Repr

/-- `handleSaveAsArtifact`: the guard `if (!pendingPasteContent) return` is
a JS falsiness check, so both a null and an empty-string pending content
exit at once, before the `try`, with nothing cleared, closed or toasted.
Otherwise upload the content under the chosen title and MIME type; on a
success result append a badge, toast success, refetch and possibly adopt a
new session id; on an error-shaped, falsy or thrown result toast one error.
The `finally` block clears the pending content and closes the form on every
one of those paths.  Upload-time inputs that the component reads from its
environment (the current session id, the badge id built from the clock and
a random suffix, the current time) are passed in. -/
def handleSaveAsArtifact (sessionId : Option String) (result : UploadResult)
    (badgeId : String) (now : Nat) (title : String) (fileType : String)
    (s : ControllerState) : SaveOutcome :=
  match s.pendingPasteContent with
  | none => ⟨s, [], false, none⟩
  | some content =>
    if content = [] then ⟨s, [], false, none⟩ else
    let _mimeType := if fileType ≠ "auto" then fileType else "text/plain"
    let cleared := { s with pendingPasteContent := none, showArtifactForm := false }
    match result with
    | .ok uri resSid =>
      let adopted :=
        match resSid with
        | some ns => if ns ≠ "" ∧ some ns ≠ sessionId then some ns else none
        | none => none
      let artifactItem : PastedArtifactItem :=
        { id := badgeId, artifactId := uri, filename := title, timestamp := now }
      ⟨{ cleared with
           pastedArtifactItems := s.pastedArtifactItems ++ [artifactItem] },
       [⟨"Artifact \"" ++ title ++ "\" created from pasted content.", false⟩],
       true, adopted⟩
    | .errResult msg =>
      ⟨cleared, [⟨"Failed to create artifact: " ++ msg, true⟩], false, none⟩
    | .nullResult =>
      ⟨cleared, [⟨"Failed to create artifact from pasted content.", true⟩],
       false, none⟩
    | .thrown msg =>
      let detail := match msg with | some m => m | none => "Unknown error"
      ⟨cleared, [⟨"Error creating artifact: " ++ detail, true⟩], false, none⟩

/-- Whether `result` is one of the failing shapes of `handleSaveAsArtifact`
(error-shaped, falsy, or thrown). -/
def UploadResult.isFailure : UploadResult → Bool
  | .ok _ _ => false
  | .errResult _ => true
  | .nullResult => true
  | .thrown _ => true

/-- Result of the session-change effect: next state and the new value of
`prevSessionIdRef`. -/
structure SessionEffectResult where
  state : ControllerState
  prevRef : Option String
deriving DecidableEq, Repr

/-- Truthiness of a `string | null` value. -/
def strTruthy : Option String → Bool
  | none => false
  | some v => v ≠ ""

/-- The `useEffect` on `[sessionId, location.state, …]`: a truthy
router-carried prompt is consumed first (variable dialog when
`detectVariables` finds placeholders, otherwise the draft is prefilled) and
the effect returns early; otherwise, when the previously recorded session
id is truthy and differs from the current one, draft, popover and
pasted-artifact badges are cleared; the ref is updated and the context
string is nulled. `detectVariables` is imported code, passed as a
parameter. -/
def sessionEffect (detectVariables : List Char → List String)
    (locPrompt : Option LocPrompt) (sessionId : Option String)
    (prev : Option String) (s : ControllerState) : SessionEffectResult :=
  let common :=
    let s1 :=
      if strTruthy prev ∧ prev ≠ sessionId then
        { s with inputValue := [], showPromptsCommand := false,
                 pastedArtifactItems := [] }
      else s
    SessionEffectResult.mk { s1 with contextText := none } sessionId
  match locPrompt with
  | some lp =>
    if lp.promptText = [] then common
    else if 0 < (detectVariables lp.promptText).length then
      ⟨{ s with pendingPromptGroup := some lp, showVariableDialog := true },
       prev⟩
    else ⟨{ s with inputValue := lp.promptText }, prev⟩
  | none => common

/-- One arrival of a batch of files, through one of the three entry points,
with the responding flag at that moment. -/
inductive ArrivalOp where
  | pick (files : List FileMeta)
  | pasteFiles (files : List FileMeta) (text : List Char)
  | dropped (files : List FileMeta)
deriving DecidableEq, Repr

/-- The files carried by an arrival. -/
def ArrivalOp.batch : ArrivalOp → List FileMeta
  | .pick files => files
  | .pasteFiles files _ => files
  | .dropped files => files

/-- Apply one arrival through the corresponding source handler. -/
def applyArrival (op : Bool × ArrivalOp) (s : ControllerState) :
    ControllerState :=
  match op.2 with
  | .pick files => handleFileChange (some files) s
  | .pasteFiles files text => (handlePaste op.1 (some ⟨files, text⟩) s).state
  | .dropped files => handleFilesDropped op.1 files s

/-- Run a sequence of arrivals. -/
def runArrivals (ops : List (Bool × ArrivalOp)) (s : ControllerState) :
    ControllerState :=
  ops.foldl (fun st op => applyArrival op st) s

/-- A controller state with everything empty, as on mount. -/
def initialState : ControllerState :=
  { selectedFiles := [], pastedArtifactItems := [],
    pendingPasteContent := none, showArtifactForm := false,
    contextText := none, inputValue := [], showPromptsCommand := false,
    showVariableDialog := false, pendingPromptGroup := none }

/-- A concrete file used in concrete runs. -/
def fileA : FileMeta := { name := "a.txt", size := 3, lastModified := 7 }

/-- A second concrete file. -/
def fileB : FileMeta := { name := "b.png", size := 10, lastModified := 42 }

/-- A concrete pasted text at the large-text threshold. -/
def bigText : List Char := List.replicate largeTextThreshold 'a'

/-- A concrete badge. -/
def badgeA : PastedArtifactItem :=
  { id := "paste-artifact-1-x", artifactId := "uri:a", filename := "a",
    timestamp := 1 }

/-- A concrete populated controller state. -/
def populatedState : ControllerState :=
  { selectedFiles := [fileA], pastedArtifactItems := [badgeA],
    pendingPasteContent := some (String.toList "pending"),
    showArtifactForm := false, contextText := some (String.toList "ctx"),
    inputValue := String.toList "  hi  ", showPromptsCommand := true,
    showVariableDialog := false, pendingPromptGroup := none }

/-- A concrete state whose draft is `"hello /wor"` with the popover open. -/
def promptExampleState : ControllerState :=
  { initialState with inputValue := String.toList "hello /wor",
                      showPromptsCommand := true }

/-- A concrete state whose pending paste content is the empty string
(non-null but falsy) with the artifact form open. -/
def emptyPendingState : ControllerState :=
  { initialState with pendingPasteContent := some [],
                      showArtifactForm := true }

/-- A concrete router-carried prompt without `{{variable}}` placeholders. -/
def routerPrompt : LocPrompt :=
  { promptText := String.toList "use this", groupId := "g1",
    groupName := "grp" }

end ChatInputArea

namespace ChatInputArea

/-! ## Theorems -/

/-- C1: `onSubmit` calls the Session context's `handleSubmit` if and only
if the controller is not responding and the trimmed draft is non-empty or
at least one file is selected (`isSubmittingEnabled`); when the guard is
false it performs no backend call, requests no scroll, and leaves the local
state unchanged. -/
theorem onSubmit_guard_iff (isResponding : Bool) (s : ControllerState) :
    ((onSubmit isResponding s).submitted.isSome = true ↔
      isSubmittingEnabled isResponding s.inputValue s.selectedFiles = true) ∧
    (isSubmittingEnabled isResponding s.inputValue s.selectedFiles = false →
      onSubmit isResponding s =
        { state := s, submitted := none, scrolledToBottom := false }) := by
  by_cases h : isSubmittingEnabled isResponding s.inputValue s.selectedFiles = true
  · refine ⟨?_, ?_⟩
    · simp [onSubmit, h]
    · intro hfalse
      rw [h] at hfalse
      cases hfalse
  · have hf : isSubmittingEnabled isResponding s.inputValue s.selectedFiles = false :=
      Bool.eq_false_iff.mpr h
    refine ⟨?_, fun _ => ?_⟩ <;> simp [onSubmit, hf]

/-- C1 witness: with the responding flag set, `onSubmit` on a populated
state does nothing. -/
theorem onSubmit_guard_iff_witness :
    onSubmit true populatedState =
      { state := populatedState, submitted := none,
        scrolledToBottom := false } :=
  (onSubmit_guard_iff true populatedState).2 (by decide)

/-- C2: after a successful `onSubmit` (guard true, submit completed), the
draft is empty, the Selected File Set is empty, the pasted-artifact badge
list is empty and the context string is null, whatever they were before. -/
theorem onSubmit_clears_state (isResponding : Bool) (s : ControllerState)
    (h : isSubmittingEnabled isResponding s.inputValue s.selectedFiles = true) :
    (onSubmit isResponding s).submitted.isSome = true ∧
    (onSubmit isResponding s).state.inputValue = [] ∧
    (onSubmit isResponding s).state.selectedFiles = [] ∧
    (onSubmit isResponding s).state.pastedArtifactItems = [] ∧
    (onSubmit isResponding s).state.contextText = none := by
  simp [onSubmit, h]

/-- C2 witness: a concrete successful submit from a fully populated state
leaves draft, files, badges and context pristine. -/
theorem onSubmit_clears_state_witness :
    isSubmittingEnabled false populatedState.inputValue
      populatedState.selectedFiles = true ∧
    ((onSubmit false populatedState).submitted.isSome = true ∧
     (onSubmit false populatedState).state.inputValue = [] ∧
     (onSubmit false populatedState).state.selectedFiles = [] ∧
     (onSubmit false populatedState).state.pastedArtifactItems = [] ∧
     (onSubmit false populatedState).state.contextText = none) :=
  ⟨by decide, onSubmit_clears_state false populatedState (by decide)⟩

/-- The duplicate test of the source compares exactly the identifying
triple, hence coincides with equality of `FileMeta`. -/
theorem sameFileMeta_iff (a b : FileMeta) : sameFileMeta a b = true ↔ a = b := by
  cases a
  cases b
  simp [sameFileMeta, and_assoc]

/-- The merge keeps only incoming files equal to no already-selected file,
so it preserves freedom from duplicates when the incoming batch has none. -/
theorem dedupMerge_nodup (selected incoming : List FileMeta)
    (h1 : selected.Nodup) (h2 : incoming.Nodup) :
    (dedupMerge selected incoming).Nodup := by
  refine List.Nodup.append h1 (h2.filter _) ?_
  intro a ha hb
  rw [List.mem_filter] at hb
  have hall : ∀ x ∈ selected, sameFileMeta x a = false := by
    simpa [List.any_eq_false] using hb.2
  have hfa := hall a ha
  rw [(sameFileMeta_iff a a).mpr rfl] at hfa
  cases hfa

/-- Every single arrival preserves freedom from duplicates when its batch
has none internally. -/
theorem applyArrival_nodup (op : Bool × ArrivalOp) (s : ControllerState)
    (h0 : s.selectedFiles.Nodup) (hb : op.2.batch.Nodup) :
    (applyArrival op s).selectedFiles.Nodup := by
  obtain ⟨r, a⟩ := op
  cases a with
  | pick files =>
    simp only [ArrivalOp.batch] at hb
    simpa [applyArrival, handleFileChange] using dedupMerge_nodup _ _ h0 hb
  | pasteFiles files text =>
    simp only [ArrivalOp.batch] at hb
    simp only [applyArrival, handlePaste]
    cases r with
    | true => simpa using h0
    | false =>
      by_cases hlen : 0 < files.length
      · simpa [hlen] using dedupMerge_nodup _ _ h0 hb
      · by_cases htext : text ≠ [] ∧ isLargeText text = true <;>
          simpa [hlen, htext] using h0
  | dropped files =>
    simp only [ArrivalOp.batch] at hb
    simp only [applyArrival, handleFilesDropped]
    cases r with
    | true => simpa using h0
    | false => simpa using dedupMerge_nodup _ _ h0 hb

/-- C3 counterexample: a single picker batch containing the same file twice
puts two instances with the identical `(name, size, lastModified)` triple
into the Selected File Set. -/
theorem runArrivals_duplicate_counterexample :
    (runArrivals [(false, ArrivalOp.pick [fileA, fileA])]
        initialState).selectedFiles = [fileA, fileA] ∧
    ¬ (runArrivals [(false, ArrivalOp.pick [fileA, fileA])]
        initialState).selectedFiles.Nodup := by
  decide

/-- C3 (amended): across any sequence of picker, paste and drop arrivals,
in any order and under any responding flags, a file equal to one already in
the Selected File Set is never added again — so the set stays free of
duplicate `(name, size, lastModified)` triples provided no single incoming
batch itself contains two identical files. -/
theorem runArrivals_nodup (ops : List (Bool × ArrivalOp))
    (s : ControllerState) (h0 : s.selectedFiles.Nodup)
    (hb : ∀ op ∈ ops, op.2.batch.Nodup) :
    (runArrivals ops s).selectedFiles.Nodup := by
  induction ops generalizing s with
  | nil => simpa [runArrivals] using h0
  | cons op rest ih =>
    have hstep := applyArrival_nodup op s h0 (hb op (by simp))
    have hrest : ∀ o ∈ rest, o.2.batch.Nodup := fun o ho => hb o (by simp [ho])
    simpa [runArrivals, List.foldl_cons] using ih (applyArrival op s) hstep hrest

/-- C3 (amended) witness: a concrete interleaving of picker, drop and paste
arrivals with overlapping duplicate-free batches yields a duplicate-free
Selected File Set. -/
theorem runArrivals_nodup_witness :
    initialState.selectedFiles.Nodup ∧
    (∀ op ∈ [(false, ArrivalOp.pick [fileA]),
             (false, ArrivalOp.dropped [fileA, fileB]),
             (false, ArrivalOp.pasteFiles [fileB] [])],
       op.2.batch.Nodup) ∧
    (runArrivals [(false, ArrivalOp.pick [fileA]),
                  (false, ArrivalOp.dropped [fileA, fileB]),
                  (false, ArrivalOp.pasteFiles [fileB] [])]
        initialState).selectedFiles.Nodup :=
  ⟨by decide, by decide,
   runArrivals_nodup _ initialState (by decide) (by decide)⟩

/-- Text classified large is in particular non-empty, so the truthiness
test on `pastedText` cannot mask the large-text branch. -/
theorem isLargeText_ne_nil (t : List Char) (h : isLargeText t = true) :
    t ≠ [] := by
  intro hnil
  subst hnil
  simp [isLargeText, largeTextThreshold] at h

/-- The concrete threshold-length text is classified large. -/
theorem bigText_isLargeText : isLargeText bigText = true := by
  simp [isLargeText, bigText]

/-- C4 counterexample: a paste event that carries a file together with
text at the large-text threshold, while not responding, merges the file
and neither records the text as pending paste content nor opens the
artifact-creation dialog — contrary to the claim's universal reading. -/
theorem handlePaste_large_text_with_files_counterexample :
    isLargeText bigText = true ∧
    (handlePaste false (some ⟨[fileA], bigText⟩)
        initialState).state.pendingPasteContent = none ∧
    (handlePaste false (some ⟨[fileA], bigText⟩)
        initialState).state.showArtifactForm = false ∧
    (handlePaste false (some ⟨[fileA], bigText⟩)
        initialState).state.selectedFiles = [fileA] := by
  refine ⟨bigText_isLargeText, ?_, ?_, ?_⟩ <;>
    simp [handlePaste, initialState, dedupMerge]

/-- C4 (amended): for every paste event whose clipboard carries no files:
while responding the event is ignored entirely (this part holds for every
clipboard payload); otherwise text at or above the large-text threshold
suppresses default insertion, becomes the pending paste content and opens
the artifact-creation dialog; text below the threshold causes no
suppression and no state change, landing in the draft by default browser
behavior. -/
theorem handlePaste_text_classification :
    (∀ (clipboardData : Option ClipboardPayload) (s : ControllerState),
       handlePaste true clipboardData s = ⟨s, false⟩) ∧
    (∀ (t : List Char) (s : ControllerState), isLargeText t = true →
       handlePaste false (some ⟨[], t⟩) s =
         ⟨{ s with pendingPasteContent := some t, showArtifactForm := true },
          true⟩) ∧
    (∀ (t : List Char) (s : ControllerState), isLargeText t = false →
       handlePaste false (some ⟨[], t⟩) s = ⟨s, false⟩) := by
  refine ⟨fun clip s => by simp [handlePaste], fun t s h => ?_, fun t s h => ?_⟩
  · have hne := isLargeText_ne_nil t h
    simp [handlePaste, h, hne]
  · simp [handlePaste, h]

/-- C4 (amended) witness: concrete instances of all three branches — a
paste ignored while responding, threshold-length text opening the dialog,
and the two-character text `"hi"` changing nothing. -/
theorem handlePaste_text_classification_witness :
    handlePaste true (some ⟨[], String.toList "hi"⟩) populatedState =
      ⟨populatedState, false⟩ ∧
    handlePaste false (some ⟨[], bigText⟩) initialState =
      ⟨{ initialState with pendingPasteContent := some bigText,
                           showArtifactForm := true }, true⟩ ∧
    handlePaste false (some ⟨[], String.toList "hi"⟩) initialState =
      ⟨initialState, false⟩ :=
  ⟨handlePaste_text_classification.1 _ _,
   handlePaste_text_classification.2.1 bigText initialState bigText_isLargeText,
   handlePaste_text_classification.2.2 _ initialState (by decide)⟩

/-- C9: a non-responding paste event carrying at least one clipboard file
only dedup-merges the files and suppresses the default: the result never
depends on the clipboard text, so pending paste content and the artifact
dialog are untouched even for text above the large-text threshold. -/
theorem handlePaste_files_short_circuit (clip : ClipboardPayload)
    (s : ControllerState) (hf : clip.files ≠ []) :
    handlePaste false (some clip) s =
      ⟨{ s with selectedFiles := dedupMerge s.selectedFiles clip.files },
       true⟩ := by
  have hlen : 0 < clip.files.length := List.length_pos.mpr hf
  simp [handlePaste, hlen]

/-- C9 witness: a concrete paste carrying one file plus threshold-length
text merges only the file; pending content and dialog state are those of
the pre-paste state. -/
theorem handlePaste_files_short_circuit_witness :
    (⟨[fileB], bigText⟩ : ClipboardPayload).files ≠ [] ∧
    handlePaste false (some ⟨[fileB], bigText⟩) populatedState =
      ⟨{ populatedState with
           selectedFiles := dedupMerge populatedState.selectedFiles [fileB] },
       true⟩ :=
  ⟨by decide, handlePaste_files_short_circuit _ populatedState (by decide)⟩

/-- C5 counterexample: with a non-null but empty-string pending paste
payload, the falsiness guard `if (!pendingPasteContent) return` exits
before the `try`/`finally`, so the pending content stays set, the artifact
form stays open, and a failing upload result emits no error toast at all —
contrary to the claim's reading of "non-null". -/
theorem handleSaveAsArtifact_empty_payload_counterexample :
    emptyPendingState.pendingPasteContent = some [] ∧
    (handleSaveAsArtifact (some "s1") (UploadResult.errResult "boom") "id1" 5
        "t.md" "auto" emptyPendingState).state.pendingPasteContent ≠ none ∧
    (handleSaveAsArtifact (some "s1") (UploadResult.errResult "boom") "id1" 5
        "t.md" "auto" emptyPendingState).state.showArtifactForm = true ∧
    (handleSaveAsArtifact (some "s1") (UploadResult.errResult "boom") "id1" 5
        "t.md" "auto" emptyPendingState).toasts = [] := by
  decide

/-- C5 (amended): whenever `handleSaveAsArtifact` runs with a truthy —
non-null and non-empty — pending paste payload, on every exit path —
success, error-shaped result, falsy result or thrown exception — the
pending paste content is nulled and the artifact form is closed, and each
failing run emits exactly one error toast. -/
theorem handleSaveAsArtifact_scoped_release (sessionId : Option String)
    (result : UploadResult) (badgeId : String) (now : Nat)
    (title fileType : String) (s : ControllerState) (c : List Char)
    (hc : s.pendingPasteContent = some c) (hne : c ≠ []) :
    (handleSaveAsArtifact sessionId result badgeId now title fileType
        s).state.pendingPasteContent = none ∧
    (handleSaveAsArtifact sessionId result badgeId now title fileType
        s).state.showArtifactForm = false ∧
    (result.isFailure = true →
      ((handleSaveAsArtifact sessionId result badgeId now title fileType
          s).toasts.filter (fun t => t.isError)).length = 1) := by
  cases result <;>
    simp [handleSaveAsArtifact, hc, hne, UploadResult.isFailure, List.filter]

/-- C5 (amended) witness: an error-shaped upload result on a state with
truthy pending paste content clears the content, closes the form, and
emits exactly one error toast. -/
theorem handleSaveAsArtifact_scoped_release_witness :
    populatedState.pendingPasteContent = some (String.toList "pending") ∧
    (handleSaveAsArtifact (some "s1") (UploadResult.errResult "boom") "id1" 5
        "t.md" "auto" populatedState).state.pendingPasteContent = none ∧
    (handleSaveAsArtifact (some "s1") (UploadResult.errResult "boom") "id1" 5
        "t.md" "auto" populatedState).state.showArtifactForm = false ∧
    ((handleSaveAsArtifact (some "s1") (UploadResult.errResult "boom") "id1" 5
        "t.md" "auto" populatedState).toasts.filter
          (fun t => t.isError)).length = 1 := by
  have h := handleSaveAsArtifact_scoped_release (some "s1")
    (UploadResult.errResult "boom") "id1" 5 "t.md" "auto" populatedState
    (String.toList "pending") (by decide) (by decide)
  exact ⟨by decide, h.1, h.2.1, h.2.2 rfl⟩

/-- C6 counterexample: during a session id transition from the defined
`"s1"` to the different `"s2"`, a pending router-carried prompt (here one
in which `detectVariables` finds no placeholder) makes the effect return
before the reset: the draft becomes the prompt text instead of clearing,
the slash-command popover stays open, and the pasted-artifact badges stay
— contrary to the claim's unconditional reset. -/
theorem sessionEffect_router_prompt_counterexample :
    ("s1" : String) ≠ "" ∧ (some "s1" : Option String) ≠ some "s2" ∧
    (sessionEffect (fun _ => []) (some routerPrompt) (some "s2") (some "s1")
        populatedState).state.inputValue = String.toList "use this" ∧
    (sessionEffect (fun _ => []) (some routerPrompt) (some "s2") (some "s1")
        populatedState).state.showPromptsCommand = true ∧
    (sessionEffect (fun _ => []) (some routerPrompt) (some "s2") (some "s1")
        populatedState).state.pastedArtifactItems = [badgeA] := by
  decide

/-- C6 (amended): on effect runs that consume no router-carried pending
prompt, a session id transition from a truthy previous value to a
different value clears the draft, closes the slash-command popover and
clears the pasted-artifact badges while leaving the Selected File Set (and
every other field except the nulled context string) unchanged; when the
previous id was null, nothing but the context string changes.  A truthy
`location.state.promptText` makes the effect return before the reset. -/
theorem sessionEffect_session_change (dv : List Char → List String)
    (sessionId : Option String) (p : String) (s : ControllerState) :
    (p ≠ "" → some p ≠ sessionId →
      (sessionEffect dv none sessionId (some p) s).state =
        { s with inputValue := [], showPromptsCommand := false,
                 pastedArtifactItems := [], contextText := none }) ∧
    ((sessionEffect dv none sessionId none s).state =
      { s with contextText := none }) := by
  constructor
  · intro hp hne
    simp [sessionEffect, strTruthy, hp, hne]
  · simp [sessionEffect, strTruthy]

/-- C6 (amended) witness: with no router-carried prompt, an `"s1"` to
`"s2"` transition on a populated state resets draft, popover and badges
but keeps the selected file; the first assignment from null changes
nothing but the context string. -/
theorem sessionEffect_session_change_witness :
    ("s1" : String) ≠ "" ∧ some "s1" ≠ some "s2" ∧
    (sessionEffect (fun _ => []) none (some "s2") (some "s1")
        populatedState).state =
      { populatedState with inputValue := [], showPromptsCommand := false,
                            pastedArtifactItems := [], contextText := none } ∧
    (sessionEffect (fun _ => []) none (some "s2") none
        populatedState).state =
      { populatedState with contextText := none } := by
  have h := sessionEffect_session_change (fun _ => []) (some "s2") "s1"
    populatedState
  exact ⟨by decide, by decide, h.1 (by decide) (by decide), h.2⟩

/-- C7: `handleInputChange` stores the new draft; the popover is opened
exactly when the character just before the cursor is `/` preceded by
nothing, a space or a newline; failing that it is closed when it was open
and the text before the cursor holds no `/`; otherwise its visibility is
untouched. -/
theorem handleInputChange_popover (value : List Char) (cursorPosition : Nat)
    (s : ControllerState) :
    (handleInputChange value cursorPosition s).inputValue = value ∧
    (handleInputChange value cursorPosition s).showPromptsCommand =
      (if (value.take cursorPosition).getLast? = some '/' ∧
          ((value.take cursorPosition).dropLast.getLast? = none ∨
           (value.take cursorPosition).dropLast.getLast? = some ' ' ∨
           (value.take cursorPosition).dropLast.getLast? = some '\n') then
        true
       else if s.showPromptsCommand = true ∧ '/' ∉ value.take cursorPosition then
        false
       else s.showPromptsCommand) := by
  simp only [handleInputChange]
  constructor
  · split_ifs <;> rfl
  · split_ifs <;> simp_all

/-- `lastIndexOf` of an absent character is `-1`. -/
theorem jsLastIndexOf_of_not_mem (c : Char) (l : List Char) (h : c ∉ l) :
    jsLastIndexOf c l = -1 := by
  induction l with
  | nil => rfl
  | cons a rest ih =>
    have ha : ¬ a = c := fun e => h (by simp [e])
    have hr : c ∉ rest := fun m => h (by simp [m])
    simp [jsLastIndexOf, ih hr, ha]

/-- `lastIndexOf` finds the position of the last occurrence: an occurrence
followed by an occurrence-free suffix. -/
theorem jsLastIndexOf_append_cons (c : Char) (b1 b2 : List Char)
    (h : c ∉ b2) : jsLastIndexOf c (b1 ++ c :: b2) = b1.length := by
  induction b1 with
  | nil => simp [jsLastIndexOf, jsLastIndexOf_of_not_mem c b2 h]
  | cons a rest ih =>
    have hnn : (0 : Int) ≤ (rest.length : Int) := Int.natCast_nonneg _
    simp [jsLastIndexOf, ih, hnn]

/-- C8: when the draft splits as `b1 ++ "/" ++ b2 ++ textAfter` with the
cursor right after `b2` and no further `/` between that slash and the
cursor, `handlePromptSelect` rewrites the draft to the text before that
last `/`, then the prompt text, then the text after the cursor, and closes
the popover. -/
theorem handlePromptSelect_replaces (b1 b2 textAfter promptText : List Char)
    (cursorPosition : Nat) (s : ControllerState)
    (hin : s.inputValue = b1 ++ '/' :: b2 ++ textAfter)
    (hcur : cursorPosition = b1.length + 1 + b2.length)
    (hslash : '/' ∉ b2) :
    handlePromptSelect cursorPosition promptText s =
      { s with inputValue := b1 ++ promptText ++ textAfter,
               showPromptsCommand := false } := by
  subst hcur
  have hassoc : b1 ++ '/' :: b2 ++ textAfter = (b1 ++ '/' :: b2) ++ textAfter := by
    simp
  have hlen : (b1 ++ '/' :: b2).length = b1.length + 1 + b2.length := by
    simp
    omega
  have htake : (b1 ++ '/' :: b2 ++ textAfter).take (b1.length + 1 + b2.length) =
      b1 ++ '/' :: b2 := by
    rw [hassoc]
    exact List.take_left' hlen
  have hdrop : (b1 ++ '/' :: b2 ++ textAfter).drop (b1.length + 1 + b2.length) =
      textAfter := by
    rw [hassoc]
    exact List.drop_left' hlen
  have hidx := jsLastIndexOf_append_cons '/' b1 b2 hslash
  simp only [handlePromptSelect, hin, htake, hdrop, hidx, jsSubstring0]
  rw [Int.toNat_natCast, List.take_left]

/-- C8 witness: draft `"hello /wor"`, cursor at the end, prompt text
`"world!"` yields draft `"hello world!"` with the popover closed. -/
theorem handlePromptSelect_replaces_witness :
    promptExampleState.inputValue =
      String.toList "hello " ++ '/' :: String.toList "wor" ++ [] ∧
    handlePromptSelect 10 (String.toList "world!") promptExampleState =
      { promptExampleState with inputValue := String.toList "hello world!",
                                showPromptsCommand := false } := by
  have h := handlePromptSelect_replaces (String.toList "hello ")
    (String.toList "wor") [] (String.toList "world!") 10 promptExampleState
    (by decide) (by decide) (by decide)
  exact ⟨by decide, by simpa using h⟩

/-- C10: the auto-submitting follow-up path calls the Session context's
`handleSubmit` with an empty attachment list and the message
`prompt ++ "\n\nContext: \"" ++ text ++ "\""` for every controller state —
no responding-flag or non-empty-draft guard — then clears the draft and the
context string, requests a scroll to bottom, and leaves the Selected File
Set and the pasted-artifact badges (and all other fields) unchanged. -/
theorem handleFollowUp_auto_submit (text p : List Char) (s : ControllerState)
    (hp : p ≠ []) :
    handleFollowUp text (some p) true s =
      { state := { s with inputValue := [], contextText := none },
        submitted :=
          some
            { files := [],
              message :=
                p ++ String.toList "\n\nContext: \"" ++ text ++ ['\"'] },
        scrolledToBottom := true } := by
  simp [handleFollowUp, hp]

/-- C10 witness: a concrete auto-submitted follow-up from a populated
state (responding-agnostic, empty-draft-agnostic) submits the composed
message with no attachments and keeps files and badges. -/
theorem handleFollowUp_auto_submit_witness :
    (String.toList "Explain this") ≠ [] ∧
    handleFollowUp (String.toList "some selection")
        (some (String.toList "Explain this")) true populatedState =
      { state := { populatedState with inputValue := [], contextText := none },
        submitted :=
          some
            { files := [],
              message :=
                String.toList "Explain this" ++
                  String.toList "\n\nContext: \"" ++
                  String.toList "some selection" ++ ['\"'] },
        scrolledToBottom := true } :=
  ⟨by decide,
   handleFollowUp_auto_submit (String.toList "some selection")
     (String.toList "Explain this") populatedState (by decide)⟩

end ChatInputArea
